import Mathlib

set_option maxRecDepth 4000

/-!
Verification development for the speed-bump instrumentation-and-delay engine.

The development shallowly embeds the two C translation units:
* src/speed_bump/_core.c   : clock calibration and the spin-delay primitive;
* src/speed_bump/_setprofile.c : the setprofile controller (match cache,
  time-window gate, frequency gate, install/uninstall).

Clocks are modelled as a sequence of u64 readings indexed by read number
(a function from read index to the raw `timespec_to_ns` value).  Machine
u64 arithmetic is modelled on Nat with explicit reduction modulo 2^64.
-/

/-- Modulus of u64 arithmetic. -/
def U64MOD : Nat := 2 ^ 64

/-- The k-th value delivered by `clock_gettime`, converted by
`timespec_to_ns`, as a u64 quantity. -/
def readClock (clock : Nat → Nat) (k : Nat) : Nat := clock k % U64MOD

/-- Wrapping u64 subtraction `a - b` (as in `timespec_to_ns(&end) - timespec_to_ns(&start)`). -/
def wrapSub (a b : Nat) : Nat := (a % U64MOD + (U64MOD - b % U64MOD)) % U64MOD

/-- `WARMUP` constant of `calibrate_clock` in `_core.c`. -/
def WARMUP : Nat := 1000

/-- `ITERS` constant of `calibrate_clock` in `_core.c`. -/
def ITERS : Nat := 100000

/-- The module-global calibration state of `_core.c`:
`g_clock_overhead_ns` and `g_calibrated`. -/
structure CalibState where
  overhead_ns : Nat
  calibrated : Bool
deriving Repr, DecidableEq

/-- A loop that performs `n` clock reads and discards the results; its only
effect is to advance the read cursor (first argument) by one per read.  Used
for both the warmup loop and the measured loop of `calibrate_clock`. -/
def skipReads : Nat → Nat → Nat
  | k, 0 => k
  | k, n + 1 => skipReads (k + 1) n

/-- `calibrate_clock` from `_core.c`: warmup reads (discarded), a start
timestamp, `ITERS` further reads, an end timestamp; overhead is the wrapped
u64 difference divided by `ITERS`.  Returns the new calibration state and
the total number of clock reads performed. -/
def calibrate_clock (clock : Nat → Nat) : CalibState × Nat :=
  let k1 := skipReads 0 WARMUP
  let startv := readClock clock k1
  let k2 := skipReads (k1 + 1) ITERS
  let endv := readClock clock k2
  let elapsed := wrapSub endv startv
  ({ overhead_ns := elapsed / ITERS, calibrated := true }, k2 + 1)

/-- `py_get_clock_overhead_ns`: returns the u64 global `g_clock_overhead_ns`. -/
def py_get_clock_overhead_ns (s : CalibState) : Nat := s.overhead_ns

/-- `py_get_min_delay_ns`: returns `2 * g_clock_overhead_ns`, computed in u64. -/
def py_get_min_delay_ns (s : CalibState) : Nat := (2 * s.overhead_ns) % U64MOD

/-- `py_is_calibrated`: returns the global `g_calibrated`. -/
def py_is_calibrated (s : CalibState) : Bool := s.calibrated

/-- The read-only operations the `_core` module exposes after initialisation. -/
inductive CoreOp
  | getOverhead
  | getMinDelay
  | isCalib
deriving Repr, DecidableEq

/-- One call of a `_core` accessor: returns the (unchanged) module state and
the numeric result of the call. -/
def coreStep (s : CalibState) : CoreOp → CalibState × Nat
  | CoreOp.getOverhead => (s, py_get_clock_overhead_ns s)
  | CoreOp.getMinDelay => (s, py_get_min_delay_ns s)
  | CoreOp.isCalib => (s, if py_is_calibrated s then 1 else 0)

/-- Run a sequence of `_core` accessor calls, collecting each result. -/
def coreRun : CalibState → List CoreOp → CalibState × List (CoreOp × Nat)
  | s, [] => (s, [])
  | s, op :: ops =>
    let p := coreStep s op
    let q := coreRun p.1 ops
    (q.1, (op, p.2) :: q.2)

/-- The values the spec prescribes for each accessor after calibration
(stable overhead, and minimum delay equal to twice the overhead). -/
def coreSpecValue (s : CalibState) : CoreOp → Nat
  | CoreOp.getOverhead => s.overhead_ns
  | CoreOp.getMinDelay => 2 * s.overhead_ns
  | CoreOp.isCalib => 1

/-- The spin loop of `spin_delay_ns`: starting at read index `k`, keep
reading the clock until a reading at least `end_ns` is seen (returning that
reading) or the fuel runs out. -/
def spinDelayLoop (clock : Nat → Nat) (end_ns : Nat) : Nat → Nat → Option Nat
  | 0, _ => Option.none
  | fuel + 1, k =>
    let now := readClock clock k
    if end_ns ≤ now then Option.some now
    else spinDelayLoop clock end_ns fuel (k + 1)

/-- `spin_delay_ns` from `_core.c` / `_setprofile.c`: read a start
timestamp (read index 0), compute the u64 deadline `start + delay`, and spin
until a reading reaches the deadline.  Returns the start reading and the
final reading, or `none` if the fuel bound is exhausted. -/
def spin_delay_ns (clock : Nat → Nat) (delay_ns fuel : Nat) : Option (Nat × Nat) :=
  let startv := readClock clock 0
  let end_ns := (startv + delay_ns % U64MOD) % U64MOD
  match spinDelayLoop clock end_ns fuel 1 with
  | Option.none => Option.none
  | Option.some now => Option.some (startv, now)

/- ------------------------------------------------------------------ -/
/- Embedding of _setprofile.c                                          -/
/- ------------------------------------------------------------------ -/

/-- The match-cache value stored in a code object via `co_extra`:
`CACHE_UNKNOWN`, `CACHE_NO_MATCH` or `CACHE_MATCH`. -/
inductive CacheVal
  | unknown
  | noMatch
  | matched
deriving Repr, DecidableEq

/-- Outcome of one invocation of the Python `matches_any` collaborator:
either a boolean result or a raised exception. -/
inductive MatcherResult
  | ok (b : Bool)
  | raise
deriving Repr, DecidableEq

/-- A Python value, to the extent the install validation inspects it:
an integer (`PyLong_Check`), a list (`PyList_Check`), or anything else. -/
inductive PyVal
  | int (n : Int)
  | list
  | other
deriving Repr, DecidableEq

/-- The configuration dict passed to `install_setprofile`; each field is the
result of `PyDict_GetItemString` for the corresponding key. -/
structure Config where
  targets : Option PyVal
  delay_ns : Option PyVal
  frequency : Option PyVal
  start_ns : Option PyVal
  end_ns : Option PyVal

/-- Success or failure of the host-API calls `py_install_setprofile` makes
after validating the configuration (module import, attribute lookup, dict
allocation, code-extra-index request). -/
structure InstallEnv where
  import_ok : Bool
  getattr_ok : Bool
  dict_new_ok : Bool
  extra_index_ok : Bool

/-- The Python exception raised by an operation of `_setprofile.c`. -/
inductive PyErr
  | alreadyInstalled
  | targetsNotList
  | delayNotInt
  | delayOverflow
  | importError
  | attrError
  | memoryError
  | extraIndexError
deriving Repr, DecidableEq

/-- The module-global state of `_setprofile.c`.  Call sites (code objects)
are identified by an opaque Nat key; `cache` models the per-code-object
`co_extra` slot at `g_extra_index`; `call_counters` models the
`g_call_counters` dict (`none` when the global is NULL). -/
structure SPState where
  extra_index_set : Bool
  patterns_loaded : Bool
  matches_any_loaded : Bool
  target_patterns : Option PyVal
  delay_ns : Nat
  frequency : Nat
  start_ns : Int
  end_ns : Int
  installed : Bool
  call_counters : Option (Nat → Nat)
  cache : Nat → CacheVal
  hook : Bool

/-- One call event delivered to `profile_callback`: the call-site key, the
event kind (`what == PyTrace_CALL`), the result of qualified-name
construction (`none` when `get_qualified_name` fails), and the value
`get_time_ns` returns for this event. -/
structure CallEvent where
  site : Nat
  is_call : Bool
  locate : Option Nat
  now_ns : Int

/-- Observable effects of one `profile_callback` invocation: whether
`spin_delay_ns` ran and with which argument, whether the locate and matcher
collaborators were invoked, and the match decision reached (if any). -/
structure CallOutput where
  delayed : Bool
  delay_amount : Nat
  locateCalled : Bool
  matcherCalled : Bool
  decision : Option Bool
deriving Repr, DecidableEq

/-- Output of an event that was ignored before any decision was taken. -/
def noOutput : CallOutput :=
  { delayed := false, delay_amount := 0, locateCalled := false,
    matcherCalled := false, decision := Option.none }

/-- Pointwise update of a map at one key. -/
def updateFn {α : Type} (f : Nat → α) (k : Nat) (v : α) : Nat → α :=
  fun s => if s = k then v else f s

/-- `check_pattern_match` from `_setprofile.c`: returns 0 without invoking
the matcher when `g_matches_any_func` or `g_target_patterns` is NULL;
otherwise invokes the matcher, mapping a raised exception to 0
(`PyErr_Clear`).  The second component records whether the Python matcher
collaborator was actually invoked. -/
def check_pattern_match (st : SPState) (m : Nat → MatcherResult) (names : Nat) : Int × Bool :=
  match st.matches_any_loaded, st.target_patterns with
  | true, Option.some _ =>
    (match m names with
     | MatcherResult.ok b => (if b then 1 else 0, true)
     | MatcherResult.raise => (0, true))
  | _, _ => (0, false)

/-- The tail of `profile_callback` reached once the event is known to match:
the time-window gate, the frequency gate, and the delay.  The flags `lc`
and `mc` carry whether locate and matcher were invoked earlier in the
callback. -/
def gates (st : SPState) (ev : CallEvent) (lc mc : Bool) : SPState × CallOutput :=
  if ev.now_ns < st.start_ns then
    (st, { delayed := false, delay_amount := 0, locateCalled := lc,
           matcherCalled := mc, decision := Option.some true })
  else if st.end_ns > 0 ∧ ev.now_ns ≥ st.end_ns then
    (st, { delayed := false, delay_amount := 0, locateCalled := lc,
           matcherCalled := mc, decision := Option.some true })
  else
    match st.call_counters with
    | Option.some ctrs =>
      if 1 < st.frequency then
        let count := ctrs ev.site + 1
        let st2 := { st with call_counters := Option.some (updateFn ctrs ev.site count) }
        if count % st.frequency ≠ 0 then
          (st2, { delayed := false, delay_amount := 0, locateCalled := lc,
                  matcherCalled := mc, decision := Option.some true })
        else
          (st2, { delayed := true, delay_amount := st.delay_ns, locateCalled := lc,
                  matcherCalled := mc, decision := Option.some true })
      else
        (st, { delayed := true, delay_amount := st.delay_ns, locateCalled := lc,
               matcherCalled := mc, decision := Option.some true })
    | Option.none =>
      (st, { delayed := true, delay_amount := st.delay_ns, locateCalled := lc,
             matcherCalled := mc, decision := Option.some true })

/-- `profile_callback` from `_setprofile.c`, for one event.  `m` is the
fixed matcher collaborator (`matches_any` applied to the installed target
patterns and the located names). -/
def profile_callback (m : Nat → MatcherResult) (st : SPState) (ev : CallEvent) :
    SPState × CallOutput :=
  if ev.is_call = false then (st, noOutput)
  else
    let cache_value := if st.extra_index_set then st.cache ev.site else CacheVal.unknown
    if cache_value = CacheVal.noMatch then
      (st, { noOutput with decision := Option.some false })
    else if cache_value = CacheVal.matched then
      gates st ev false false
    else
      match ev.locate with
      | Option.none => (st, { noOutput with locateCalled := true })
      | Option.some names =>
        let r := check_pattern_match st m names
        let is_match := 0 < r.1
        let newEntry := if is_match then CacheVal.matched else CacheVal.noMatch
        let st1 :=
          if st.extra_index_set then
            { st with cache := updateFn st.cache ev.site newEntry }
          else st
        if is_match then gates st1 ev true r.2
        else (st1, { delayed := false, delay_amount := 0, locateCalled := true,
                     matcherCalled := r.2, decision := Option.some false })

/-- Final phase of `py_install_setprofile`: request the code-extra index if
not yet obtained, then attach the profile hook and set `g_installed`. -/
def installFinish (env : InstallEnv) (st : SPState) : SPState × Except PyErr Unit :=
  if st.extra_index_set = false ∧ env.extra_index_ok = false then
    (st, Except.error PyErr.extraIndexError)
  else
    ({ st with extra_index_set := true, hook := true, installed := true }, Except.ok ())

/-- Parsing of the optional `frequency` key: defaults to 1 when absent or
not an integer, and values below 1 are clamped to 1. -/
def parseFreq (v : Option PyVal) : Nat :=
  match v with
  | Option.some (PyVal.int f) => if f < 1 then 1 else f.toNat
  | _ => 1

/-- Parsing of the optional `start_ns` and `end_ns` keys: the integer when
present, otherwise 0. -/
def parseIntField (v : Option PyVal) : Int :=
  match v with
  | Option.some (PyVal.int s) => s
  | _ => 0

/-- Middle phase of `py_install_setprofile`, after the `targets` and
`delay_ns` checks and the `delay_ns` conversion succeeded: parse the
optional fields, store the targets reference, import the pattern module and
fetch `matches_any` (if not already cached), and allocate the call-counter
dict when `frequency > 1`. -/
def installCont (env : InstallEnv) (st : SPState) (cfg : Config) : SPState × Except PyErr Unit :=
  let freq := parseFreq cfg.frequency
  let st1 := { st with frequency := freq, start_ns := parseIntField cfg.start_ns,
                       end_ns := parseIntField cfg.end_ns,
                       target_patterns := cfg.targets }
  if st1.patterns_loaded = false ∧ env.import_ok = false then
    (st1, Except.error PyErr.importError)
  else
    let st2 := { st1 with patterns_loaded := true }
    if st2.matches_any_loaded = false ∧ env.getattr_ok = false then
      (st2, Except.error PyErr.attrError)
    else
      let st3 := { st2 with matches_any_loaded := true }
      if 1 < freq then
        if env.dict_new_ok then
          installFinish env { st3 with call_counters := Option.some (fun _ => 0) }
        else
          ({ st3 with call_counters := Option.none }, Except.error PyErr.memoryError)
      else
        installFinish env st3

/-- `py_install_setprofile` from `_setprofile.c`.  Returns the module state
after the call together with the Python-level outcome. -/
def py_install_setprofile (env : InstallEnv) (st : SPState) (cfg : Config) :
    SPState × Except PyErr Unit :=
  if st.installed then (st, Except.error PyErr.alreadyInstalled)
  else
    match cfg.targets with
    | Option.some PyVal.list =>
      (match cfg.delay_ns with
       | Option.some (PyVal.int d) =>
         if d < 0 ∨ (U64MOD : Int) ≤ d then
           ({ st with delay_ns := U64MOD - 1 }, Except.error PyErr.delayOverflow)
         else
           installCont env { st with delay_ns := d.toNat } cfg
       | _ => (st, Except.error PyErr.delayNotInt))
    | _ => (st, Except.error PyErr.targetsNotList)

/-- `py_uninstall_setprofile` from `_setprofile.c`: a no-op when not
installed; otherwise removes the hook, releases the target patterns and the
call-counter dict, and clears `g_installed`.  The match cache is untouched. -/
def py_uninstall_setprofile (st : SPState) : SPState × Except PyErr Unit :=
  if st.installed = false then (st, Except.ok ())
  else
    ({ st with hook := false, target_patterns := Option.none,
               call_counters := Option.none, installed := false }, Except.ok ())

/-- `py_is_installed_setprofile`: returns `g_installed`. -/
def py_is_installed_setprofile (st : SPState) : Bool := st.installed

/-- `targets` validation check of `py_install_setprofile`
(`targets != NULL && PyList_Check(targets)`). -/
def targetsIsList (cfg : Config) : Bool :=
  match cfg.targets with
  | Option.some PyVal.list => true
  | _ => false

/-- `delay_ns` validation check of `py_install_setprofile`
(`delay_obj != NULL && PyLong_Check(delay_obj)`). -/
def delayIsInt (cfg : Config) : Bool :=
  match cfg.delay_ns with
  | Option.some (PyVal.int _) => true
  | _ => false

/-- Iterate `profile_callback` on the same event `n` times, collecting
whether each invocation delayed. -/
def runSameEvent (m : Nat → MatcherResult) : Nat → SPState → CallEvent → SPState × List Bool
  | 0, st, _ => (st, [])
  | n + 1, st, ev =>
    let p := profile_callback m st ev
    let q := runSameEvent m n p.1 ev
    (q.1, p.2.delayed :: q.2)

/- ------------------------------------------------------------------ -/
/- Concrete instances used by witnesses and counterexamples.           -/
/- ------------------------------------------------------------------ -/

/-- A matcher collaborator that always answers `false`. -/
def mFalse : Nat → MatcherResult := fun _ => MatcherResult.ok false

/-- A matcher collaborator that always raises. -/
def mRaise : Nat → MatcherResult := fun _ => MatcherResult.raise

/-- The module state as it is at process start, before any install. -/
def stFresh : SPState :=
  { extra_index_set := false, patterns_loaded := false, matches_any_loaded := false,
    target_patterns := Option.none, delay_ns := 0, frequency := 1, start_ns := 0,
    end_ns := 0, installed := false, call_counters := Option.none,
    cache := fun _ => CacheVal.unknown, hook := false }

/-- An installed module state with chosen gating fields, a cache holding
`c0` for site 0, and the given counter table. -/
def mkInstalled (freq : Nat) (startv endv : Int) (c0 : CacheVal)
    (ctrs : Option (Nat → Nat)) : SPState :=
  { extra_index_set := true, patterns_loaded := true, matches_any_loaded := true,
    target_patterns := Option.some PyVal.list, delay_ns := 5, frequency := freq,
    start_ns := startv, end_ns := endv, installed := true, call_counters := ctrs,
    cache := fun s => if s = 0 then c0 else CacheVal.unknown, hook := true }

/-- A call event at site 0 with the given current time. -/
def evAt (now : Int) : CallEvent :=
  { site := 0, is_call := true, locate := Option.some 0, now_ns := now }

/-- An environment in which every host-API call succeeds. -/
def envOk : InstallEnv :=
  { import_ok := true, getattr_ok := true, dict_new_ok := true, extra_index_ok := true }

/-- An environment in which importing the pattern module fails. -/
def envNoImport : InstallEnv :=
  { import_ok := false, getattr_ok := true, dict_new_ok := true, extra_index_ok := true }

/-- A well-formed configuration: a target list and `delay_ns = 5`. -/
def cfgGood : Config :=
  { targets := Option.some PyVal.list, delay_ns := Option.some (PyVal.int 5),
    frequency := Option.none, start_ns := Option.none, end_ns := Option.none }

/-- A configuration whose `targets` value is not a list. -/
def cfgBadTargets : Config :=
  { targets := Option.some PyVal.other, delay_ns := Option.some (PyVal.int 5),
    frequency := Option.none, start_ns := Option.none, end_ns := Option.none }

/- ------------------------------------------------------------------ -/
/- Supporting lemmas for the `_core.c` embedding.                      -/
/- ------------------------------------------------------------------ -/

theorem skipReads_add (n k : Nat) : skipReads k n = k + n := by
  induction n generalizing k with
  | zero => simp [skipReads]
  | succ n ih => simp [skipReads, ih]; omega

theorem wrapSub_lt_u64 (a b : Nat) : wrapSub a b < U64MOD := by
  have h : 0 < U64MOD := by decide
  exact Nat.mod_lt _ h

theorem calibrate_clock_eq (clock : Nat → Nat) :
    calibrate_clock clock =
      ({ overhead_ns :=
           wrapSub (readClock clock (WARMUP + ITERS + 1)) (readClock clock WARMUP) / ITERS,
         calibrated := true }, WARMUP + ITERS + 2) := by
  simp [calibrate_clock, skipReads_add, wrapSub, readClock, Nat.mod_mod_of_dvd]
  constructor
  · constructor
  · simp [WARMUP, ITERS]

theorem calibrate_overhead_small (clock : Nat → Nat) :
    2 * (calibrate_clock clock).1.overhead_ns < U64MOD := by
  rw [calibrate_clock_eq]
  show 2 * (wrapSub (readClock clock (WARMUP + ITERS + 1)) (readClock clock WARMUP) / ITERS) <
    U64MOD
  have h1 : wrapSub (readClock clock (WARMUP + ITERS + 1)) (readClock clock WARMUP) ≤
      U64MOD - 1 := by
    have := wrapSub_lt_u64 (readClock clock (WARMUP + ITERS + 1)) (readClock clock WARMUP)
    omega
  have h2 : wrapSub (readClock clock (WARMUP + ITERS + 1)) (readClock clock WARMUP) / ITERS ≤
      (U64MOD - 1) / ITERS := Nat.div_le_div_right h1
  have h3 : 2 * ((U64MOD - 1) / ITERS) < U64MOD := by decide
  omega

theorem spinDelayLoop_exit (clock : Nat → Nat) (end_ns : Nat) :
    ∀ fuel k now, spinDelayLoop clock end_ns fuel k = Option.some now → end_ns ≤ now := by
  intro fuel
  induction fuel with
  | zero => intro k now h; simp [spinDelayLoop] at h
  | succ f ih =>
    intro k now h
    simp only [spinDelayLoop] at h
    by_cases hc : end_ns ≤ readClock clock k
    · rw [if_pos hc] at h
      cases h
      exact hc
    · rw [if_neg hc] at h
      exact ih (k + 1) now h

/- ------------------------------------------------------------------ -/
/- Claim C1                                                            -/
/- ------------------------------------------------------------------ -/

/-- Claim C1 as stated is false: with a start reading of 1 and
`duration_ns = 2^64 - 1`, the u64 deadline `start + delay` wraps to 0, so
`spin_delay_ns` returns after its very first loop read, with zero elapsed
monotonic time instead of at least `duration_ns`. -/
theorem C1_counterexample :
    spin_delay_ns (fun _ => 1) (U64MOD - 1) 1 = Option.some (1, 1) ∧
      ¬ (U64MOD - 1 ≤ 1 - 1) := by
  constructor
  · decide
  · decide

/-- Claim C1 (amended): for every `duration_ns ≥ 0` such that
`start + duration_ns` does not overflow u64, when `spin_delay_ns` returns,
the last monotonic reading is at least `start + duration_ns`: at least
`duration_ns` nanoseconds of monotonic-clock time have elapsed since the
start timestamp was read. -/
theorem C1_spin_delay_elapsed (clock : Nat → Nat) (delay_ns fuel startv now : Nat)
    (h : spin_delay_ns clock delay_ns fuel = Option.some (startv, now))
    (hno : startv + delay_ns < U64MOD) :
    startv + delay_ns ≤ now := by
  simp only [spin_delay_ns] at h
  cases hE : spinDelayLoop clock ((readClock clock 0 + delay_ns % U64MOD) % U64MOD) fuel 1 with
  | none => rw [hE] at h; exact absurd h (by simp)
  | some w =>
    rw [hE] at h
    simp only [Option.some.injEq, Prod.mk.injEq] at h
    obtain ⟨hs, hn⟩ := h
    rw [← hs] at hno ⊢
    rw [← hn]
    have hd : delay_ns % U64MOD = delay_ns := Nat.mod_eq_of_lt (by omega)
    have hloop := spinDelayLoop_exit clock _ fuel 1 w hE
    rw [hd, Nat.mod_eq_of_lt hno] at hloop
    exact hloop

/-- Witness for `C1_spin_delay_elapsed` at a concrete clock and delay. -/
theorem C1_spin_delay_elapsed_witness :
    spin_delay_ns (fun k => k * 10) 25 10 = Option.some (0, 30) ∧ 0 + 25 ≤ 30 :=
  ⟨by decide, C1_spin_delay_elapsed (fun k => k * 10) 25 10 0 30 (by decide) (by decide)⟩

/- ------------------------------------------------------------------ -/
/- Claims C7 and C8                                                    -/
/- ------------------------------------------------------------------ -/

theorem coreStep_state (s : CalibState) (op : CoreOp) : (coreStep s op).1 = s := by
  cases op <;> rfl

theorem coreStep_out (s : CalibState) (op : CoreOp) (hcal : s.calibrated = true)
    (h2 : 2 * s.overhead_ns < U64MOD) : (coreStep s op).2 = coreSpecValue s op := by
  cases op <;>
    simp [coreStep, coreSpecValue, py_get_min_delay_ns, py_get_clock_overhead_ns,
      py_is_calibrated, Nat.mod_eq_of_lt h2, hcal]

theorem coreRun_stable (s : CalibState) (hcal : s.calibrated = true)
    (h2 : 2 * s.overhead_ns < U64MOD) (ops : List CoreOp) :
    (coreRun s ops).1 = s ∧
      ((coreRun s ops).2.all (fun p => p.2 == coreSpecValue s p.1)) = true := by
  induction ops with
  | nil => simp [coreRun]
  | cons op ops ih =>
    have hs := coreStep_state s op
    have ho := coreStep_out s op hcal h2
    simp [coreRun, hs, ho, ih]

/-- Claim C7: once calibration has run, any sequence of calls to the
accessors leaves the calibration state unchanged, every
`get_clock_overhead_ns` result equals the calibrated overhead, every
`get_min_delay_ns` result equals twice that overhead (the u64
multiplication cannot wrap, since the overhead is at most
`(2^64 - 1) / 100000`), and `get_min_delay_ns` always equals
`2 * get_clock_overhead_ns`. -/
theorem C7_calibration_stable (clock : Nat → Nat) (ops : List CoreOp) :
    (coreRun (calibrate_clock clock).1 ops).1 = (calibrate_clock clock).1 ∧
      ((coreRun (calibrate_clock clock).1 ops).2.all
        (fun p => p.2 == coreSpecValue (calibrate_clock clock).1 p.1)) = true ∧
      py_is_calibrated (calibrate_clock clock).1 = true ∧
      py_get_min_delay_ns (calibrate_clock clock).1
        = 2 * py_get_clock_overhead_ns (calibrate_clock clock).1 := by
  have hcal : (calibrate_clock clock).1.calibrated = true := by
    rw [calibrate_clock_eq]
  have h2 := calibrate_overhead_small clock
  have hrun := coreRun_stable (calibrate_clock clock).1 hcal h2 ops
  refine ⟨hrun.1, hrun.2, hcal, ?_⟩
  simp [py_get_min_delay_ns, py_get_clock_overhead_ns, Nat.mod_eq_of_lt h2]

/-- Claim C8: `calibrate_clock` performs `WARMUP = 1000` discarded warmup
reads, then `ITERS = 100000` reads bracketed by a start timestamp (read
index `WARMUP`) and an end timestamp (read index `WARMUP + ITERS + 1`), for
`WARMUP + ITERS + 2` reads in total; it sets
`overhead_ns = (end - start) / ITERS` (u64 subtraction) and
`calibrated = true`.  The result is independent of the discarded warmup
readings, and the measured iteration count is larger than the warmup
count. -/
theorem C8_calibrate_algorithm (clock junk : Nat → Nat) :
    calibrate_clock clock =
      ({ overhead_ns :=
           wrapSub (readClock clock (WARMUP + ITERS + 1)) (readClock clock WARMUP) / ITERS,
         calibrated := true }, WARMUP + ITERS + 2) ∧
      calibrate_clock (fun i => if i < WARMUP then junk i else clock i) =
        calibrate_clock clock ∧
      WARMUP < ITERS := by
  refine ⟨calibrate_clock_eq clock, ?_, by decide⟩
  rw [calibrate_clock_eq, calibrate_clock_eq]
  have h1 : ¬ (WARMUP + ITERS + 1 < WARMUP) := by omega
  have h2 : ¬ (WARMUP < WARMUP) := by omega
  simp [readClock, h1, h2]

/- ------------------------------------------------------------------ -/
/- Claim C2                                                            -/
/- ------------------------------------------------------------------ -/

/-- Claim C2 as stated is false: after a successful uninstall from an
installed state in which site 0 holds a terminal `Match` decision, the
match cache still holds that terminal decision for site 0: uninstall does
not bulk-clear the cache. -/
theorem C2_counterexample :
    (py_uninstall_setprofile (mkInstalled 1 0 0 CacheVal.matched Option.none)).2
        = Except.ok () ∧
      py_is_installed_setprofile
        (py_uninstall_setprofile (mkInstalled 1 0 0 CacheVal.matched Option.none)).1 = false ∧
      (py_uninstall_setprofile (mkInstalled 1 0 0 CacheVal.matched Option.none)).1.cache 0
        = CacheVal.matched :=
  ⟨rfl, rfl, rfl⟩

/-- Claim C2 (amended): match-cache entries are never cleared: both
`py_uninstall_setprofile` and `py_install_setprofile` leave the whole match
cache unchanged, so terminal decisions persist across uninstall and
reinstall, for the process lifetime. -/
theorem C2_cache_persists (st : SPState) (env : InstallEnv) (cfg : Config) :
    (py_uninstall_setprofile st).1.cache = st.cache ∧
      (py_install_setprofile env st cfg).1.cache = st.cache := by
  constructor
  · unfold py_uninstall_setprofile
    split <;> rfl
  · simp only [py_install_setprofile, installCont, installFinish]
    repeat' split
    all_goals rfl

/- ------------------------------------------------------------------ -/
/- Claim C9                                                            -/
/- ------------------------------------------------------------------ -/

/-- Claim C9 as stated is false in its "exactly when" part: from a
not-installed state, install with a non-list `targets` raises even though
`is_installed()` is false. -/
theorem C9_counterexample :
    py_is_installed_setprofile stFresh = false ∧
      (py_install_setprofile envOk stFresh cfgBadTargets).2
        = Except.error PyErr.targetsNotList :=
  ⟨rfl, rfl⟩

/-- Claim C9 (amended): install while already installed fails with the
"already installed" error and changes no state; uninstall while not
installed succeeds as a no-op; uninstall never raises.  (Install may also
raise on invalid configuration while not installed.) -/
theorem C9_admin_ops (env : InstallEnv) (st st2 st3 : SPState) (cfg : Config)
    (h1 : py_is_installed_setprofile st = true)
    (h2 : py_is_installed_setprofile st2 = false) :
    py_install_setprofile env st cfg = (st, Except.error PyErr.alreadyInstalled) ∧
      py_uninstall_setprofile st2 = (st2, Except.ok ()) ∧
      (py_uninstall_setprofile st3).2 = Except.ok () := by
  simp only [py_is_installed_setprofile] at h1 h2
  refine ⟨?_, ?_, ?_⟩
  · simp [py_install_setprofile, h1]
  · simp [py_uninstall_setprofile, h2]
  · unfold py_uninstall_setprofile
    split <;> rfl

/-- Witness for `C9_admin_ops` at concrete states. -/
theorem C9_admin_ops_witness :
    py_install_setprofile envOk (mkInstalled 1 0 0 CacheVal.unknown Option.none) cfgGood
        = (mkInstalled 1 0 0 CacheVal.unknown Option.none,
           Except.error PyErr.alreadyInstalled) ∧
      py_uninstall_setprofile stFresh = (stFresh, Except.ok ()) ∧
      (py_uninstall_setprofile stFresh).2 = Except.ok () :=
  C9_admin_ops envOk (mkInstalled 1 0 0 CacheVal.unknown Option.none) stFresh stFresh
    cfgGood rfl rfl

/- ------------------------------------------------------------------ -/
/- Claim C6                                                            -/
/- ------------------------------------------------------------------ -/

theorem installCont_error (env : InstallEnv) (st : SPState) (cfg : Config) :
    ∀ st2 e, installCont env st cfg = (st2, Except.error e) →
      st2.installed = st.installed ∧ st2.hook = st.hook := by
  simp only [installCont, installFinish]
  repeat' split
  all_goals intro st2 e h
  all_goals injection h with h1 h2
  all_goals first
    | (subst h1; exact ⟨rfl, rfl⟩)
    | simp_all

/-- Claim C6 as stated is false in its "no partial installation state" part:
with a valid configuration but a failing pattern-module import, install
reports an error, attaches no hook and leaves `is_installed()` false, yet
`g_delay_ns` (and other configuration globals) have already been
overwritten. -/
theorem C6_counterexample :
    (py_install_setprofile envNoImport stFresh cfgGood).2 = Except.error PyErr.importError ∧
      py_is_installed_setprofile (py_install_setprofile envNoImport stFresh cfgGood).1
        = false ∧
      (py_install_setprofile envNoImport stFresh cfgGood).1.delay_ns = 5 ∧
      stFresh.delay_ns = 0 :=
  ⟨rfl, rfl, rfl, rfl⟩

/-- Claim C6 (amended): whenever install fails (validation or any later
setup failure), the error is reported before any hook is attached —
`is_installed()` and the hook are left as they were — and the two listed
validation failures (`targets` missing or not a list, `delay_ns` missing or
not an integer) leave the whole state unchanged; later setup failures may
leave partially-updated configuration globals behind. -/
theorem C6_install_validation (env : InstallEnv) (st : SPState) (cfg : Config) (e : PyErr) :
    (∀ st2, py_install_setprofile env st cfg = (st2, Except.error e) →
       py_is_installed_setprofile st2 = py_is_installed_setprofile st ∧
         st2.hook = st.hook) ∧
      (py_is_installed_setprofile st = false → targetsIsList cfg = false →
        py_install_setprofile env st cfg = (st, Except.error PyErr.targetsNotList)) ∧
      (py_is_installed_setprofile st = false → targetsIsList cfg = true →
        delayIsInt cfg = false →
        py_install_setprofile env st cfg = (st, Except.error PyErr.delayNotInt)) := by
  refine ⟨?_, ?_, ?_⟩
  · intro st2 h
    simp only [py_is_installed_setprofile]
    unfold py_install_setprofile at h
    split at h
    · injection h with h1 h2
      subst h1
      exact ⟨rfl, rfl⟩
    · split at h
      · split at h
        · split at h
          · injection h with h1 h2
            subst h1
            exact ⟨rfl, rfl⟩
          · have h3 := installCont_error env _ cfg st2 e h
            exact h3
        · injection h with h1 h2
          subst h1
          exact ⟨rfl, rfl⟩
      · injection h with h1 h2
        subst h1
        exact ⟨rfl, rfl⟩
  · intro hinst htl
    simp only [py_is_installed_setprofile] at hinst
    unfold py_install_setprofile
    rw [hinst]
    cases ht : cfg.targets with
    | none => simp
    | some v =>
      cases v with
      | int n => simp
      | list => simp [targetsIsList, ht] at htl
      | other => simp
  · intro hinst htl hd
    simp only [py_is_installed_setprofile] at hinst
    unfold py_install_setprofile
    rw [hinst]
    cases ht : cfg.targets with
    | none => simp [targetsIsList, ht] at htl
    | some v =>
      cases v with
      | int n => simp [targetsIsList, ht] at htl
      | other => simp [targetsIsList, ht] at htl
      | list =>
        cases hdl : cfg.delay_ns with
        | none => simp
        | some w =>
          cases w with
          | int n => simp [delayIsInt, hdl] at hd
          | list => simp
          | other => simp

/-- Witness for `C6_install_validation` at a concrete invalid
configuration. -/
theorem C6_install_validation_witness :
    py_install_setprofile envOk stFresh cfgBadTargets
      = (stFresh, Except.error PyErr.targetsNotList) :=
  (C6_install_validation envOk stFresh cfgBadTargets PyErr.targetsNotList).2.1 rfl rfl

/- ------------------------------------------------------------------ -/
/- Case lemmas for profile_callback                                    -/
/- ------------------------------------------------------------------ -/

theorem gates_fst_cache (st : SPState) (ev : CallEvent) (lc mc : Bool) :
    (gates st ev lc mc).1.cache = st.cache := by
  simp only [gates]
  repeat' split
  all_goals rfl

theorem gates_snd (st : SPState) (ev : CallEvent) (lc mc : Bool) :
    (gates st ev lc mc).2.locateCalled = lc ∧ (gates st ev lc mc).2.matcherCalled = mc ∧
      (gates st ev lc mc).2.decision = Option.some true := by
  simp only [gates]
  repeat' split
  all_goals exact ⟨rfl, rfl, rfl⟩

theorem profile_callback_not_call (m : Nat → MatcherResult) (st : SPState) (ev : CallEvent)
    (hcall : ev.is_call = false) : profile_callback m st ev = (st, noOutput) := by
  simp [profile_callback, hcall]

theorem profile_callback_noMatch_hit (m : Nat → MatcherResult) (st : SPState) (ev : CallEvent)
    (hx : st.extra_index_set = true) (hcall : ev.is_call = true)
    (hcv : st.cache ev.site = CacheVal.noMatch) :
    profile_callback m st ev = (st, { noOutput with decision := Option.some false }) := by
  simp [profile_callback, hcall, hx, hcv]

theorem profile_callback_matched_hit (m : Nat → MatcherResult) (st : SPState) (ev : CallEvent)
    (hx : st.extra_index_set = true) (hcall : ev.is_call = true)
    (hcv : st.cache ev.site = CacheVal.matched) :
    profile_callback m st ev = gates st ev false false := by
  simp [profile_callback, hcall, hx, hcv]

theorem profile_callback_locate_fail (m : Nat → MatcherResult) (st : SPState) (ev : CallEvent)
    (hx : st.extra_index_set = true) (hcall : ev.is_call = true)
    (hcv : st.cache ev.site = CacheVal.unknown) (hloc : ev.locate = Option.none) :
    profile_callback m st ev = (st, { noOutput with locateCalled := true }) := by
  simp [profile_callback, hcall, hx, hcv, hloc]

theorem profile_callback_unknown_noMatch (m : Nat → MatcherResult) (st : SPState)
    (ev : CallEvent) (names : Nat) (hx : st.extra_index_set = true)
    (hcall : ev.is_call = true) (hcv : st.cache ev.site = CacheVal.unknown)
    (hloc : ev.locate = Option.some names)
    (hm : ¬ 0 < (check_pattern_match st m names).1) :
    profile_callback m st ev =
      ({ st with cache := updateFn st.cache ev.site CacheVal.noMatch },
       { delayed := false, delay_amount := 0, locateCalled := true,
         matcherCalled := (check_pattern_match st m names).2,
         decision := Option.some false }) := by
  simp [profile_callback, hcall, hx, hcv, hloc, hm]

theorem profile_callback_unknown_match (m : Nat → MatcherResult) (st : SPState)
    (ev : CallEvent) (names : Nat) (hx : st.extra_index_set = true)
    (hcall : ev.is_call = true) (hcv : st.cache ev.site = CacheVal.unknown)
    (hloc : ev.locate = Option.some names)
    (hm : 0 < (check_pattern_match st m names).1) :
    profile_callback m st ev =
      gates { st with cache := updateFn st.cache ev.site CacheVal.matched } ev true
        (check_pattern_match st m names).2 := by
  simp [profile_callback, hcall, hx, hcv, hloc, hm]

/- ------------------------------------------------------------------ -/
/- Claim C5                                                            -/
/- ------------------------------------------------------------------ -/

/-- Claim C5: the cached decision for a call site transitions only from
`Unknown` (so it reaches a terminal value at most once and never changes
afterwards), and once a site holds a terminal value, handling an event for
that site leaves the whole cache unchanged, invokes neither the locate nor
the matcher collaborator, and reproduces the same boolean decision
(`Match` sites decide true, `NoMatch` sites decide false). -/
theorem C5_match_cache_terminal (m : Nat → MatcherResult) (st : SPState) (ev : CallEvent)
    (hx : st.extra_index_set = true) :
    (∀ s, (profile_callback m st ev).1.cache s ≠ st.cache s →
       st.cache s = CacheVal.unknown) ∧
      (st.cache ev.site ≠ CacheVal.unknown →
        (profile_callback m st ev).1.cache = st.cache ∧
          (profile_callback m st ev).2.locateCalled = false ∧
          (profile_callback m st ev).2.matcherCalled = false) ∧
      (st.cache ev.site = CacheVal.matched → ev.is_call = true →
        (profile_callback m st ev).2.decision = Option.some true) ∧
      (st.cache ev.site = CacheVal.noMatch → ev.is_call = true →
        (profile_callback m st ev).2.decision = Option.some false) := by
  refine ⟨?_, ?_, ?_, ?_⟩
  · intro s hs
    by_cases hcall : ev.is_call = true
    · cases hcv : st.cache ev.site with
      | noMatch =>
        rw [profile_callback_noMatch_hit m st ev hx hcall hcv] at hs
        exact absurd rfl hs
      | matched =>
        rw [profile_callback_matched_hit m st ev hx hcall hcv, gates_fst_cache] at hs
        exact absurd rfl hs
      | unknown =>
        cases hloc : ev.locate with
        | none =>
          rw [profile_callback_locate_fail m st ev hx hcall hcv hloc] at hs
          exact absurd rfl hs
        | some names =>
          by_cases hm : 0 < (check_pattern_match st m names).1
          · rw [profile_callback_unknown_match m st ev names hx hcall hcv hloc hm,
              gates_fst_cache] at hs
            simp only [updateFn] at hs
            by_cases hse : s = ev.site
            · rw [hse]
              exact hcv
            · rw [if_neg hse] at hs
              exact absurd rfl hs
          · rw [profile_callback_unknown_noMatch m st ev names hx hcall hcv hloc hm] at hs
            simp only [updateFn] at hs
            by_cases hse : s = ev.site
            · rw [hse]
              exact hcv
            · rw [if_neg hse] at hs
              exact absurd rfl hs
    · have hcall2 : ev.is_call = false := by
        revert hcall
        cases ev.is_call <;> simp
      rw [profile_callback_not_call m st ev hcall2] at hs
      exact absurd rfl hs
  · intro hterm
    by_cases hcall : ev.is_call = true
    · cases hcv : st.cache ev.site with
      | unknown => exact absurd hcv hterm
      | noMatch =>
        rw [profile_callback_noMatch_hit m st ev hx hcall hcv]
        exact ⟨rfl, rfl, rfl⟩
      | matched =>
        rw [profile_callback_matched_hit m st ev hx hcall hcv]
        exact ⟨gates_fst_cache st ev false false, (gates_snd st ev false false).1,
          (gates_snd st ev false false).2.1⟩
    · have hcall2 : ev.is_call = false := by
        revert hcall
        cases ev.is_call <;> simp
      rw [profile_callback_not_call m st ev hcall2]
      exact ⟨rfl, rfl, rfl⟩
  · intro hcv hcall
    rw [profile_callback_matched_hit m st ev hx hcall hcv]
    exact (gates_snd st ev false false).2.2
  · intro hcv hcall
    rw [profile_callback_noMatch_hit m st ev hx hcall hcv]

/-- Witness for `C5_match_cache_terminal`: a site with a cached `Match`
decision is decided again as true with no matcher invocation. -/
theorem C5_match_cache_terminal_witness :
    ((profile_callback mFalse (mkInstalled 1 0 0 CacheVal.matched Option.none)
        (evAt 0)).2.matcherCalled = false) ∧
      ((profile_callback mFalse (mkInstalled 1 0 0 CacheVal.matched Option.none)
        (evAt 0)).2.decision = Option.some true) :=
  ⟨((C5_match_cache_terminal mFalse (mkInstalled 1 0 0 CacheVal.matched Option.none)
      (evAt 0) rfl).2.1 (by decide)).2.2,
   (C5_match_cache_terminal mFalse (mkInstalled 1 0 0 CacheVal.matched Option.none)
      (evAt 0) rfl).2.2.1 rfl rfl⟩

/- ------------------------------------------------------------------ -/
/- Claim C10                                                           -/
/- ------------------------------------------------------------------ -/

/-- Claim C10: when the matcher raises for a never-before-decided site, the
error is swallowed, the event produces no delay, and `NoMatch` is cached as
the site's permanent decision; every later call event at that site is then
dismissed from the cache without invoking locate or the matcher and without
delaying. -/
theorem C10_matcher_failure (m : Nat → MatcherResult) (st : SPState) (ev : CallEvent)
    (names : Nat) (p : PyVal)
    (hcall : ev.is_call = true) (hx : st.extra_index_set = true)
    (hun : st.cache ev.site = CacheVal.unknown)
    (hloc : ev.locate = Option.some names)
    (hld : st.matches_any_loaded = true)
    (hpat : st.target_patterns = Option.some p)
    (hm : m names = MatcherResult.raise) :
    profile_callback m st ev
        = ({ st with cache := updateFn st.cache ev.site CacheVal.noMatch },
           { delayed := false, delay_amount := 0, locateCalled := true,
             matcherCalled := true, decision := Option.some false }) ∧
      (∀ st2 ev2, st2.extra_index_set = true → st2.cache ev.site = CacheVal.noMatch →
        ev2.site = ev.site → ev2.is_call = true →
        profile_callback m st2 ev2 = (st2, { noOutput with decision := Option.some false })) := by
  have hcp : check_pattern_match st m names = (0, true) := by
    simp [check_pattern_match, hld, hpat, hm]
  constructor
  · have hnm : ¬ 0 < (check_pattern_match st m names).1 := by
      rw [hcp]
      decide
    rw [profile_callback_unknown_noMatch m st ev names hx hcall hun hloc hnm, hcp]
  · intro st2 ev2 hx2 hc2 hsite hcall2
    refine profile_callback_noMatch_hit m st2 ev2 hx2 hcall2 ?_
    rw [hsite]
    exact hc2

/-- Witness for `C10_matcher_failure` at a concrete raising matcher. -/
theorem C10_matcher_failure_witness :
    (profile_callback mRaise (mkInstalled 1 0 0 CacheVal.unknown Option.none)
        (evAt 0)).1.cache 0 = CacheVal.noMatch ∧
      (profile_callback mRaise (mkInstalled 1 0 0 CacheVal.unknown Option.none)
        (evAt 0)).2.delayed = false ∧
      (profile_callback mRaise (mkInstalled 1 0 0 CacheVal.unknown Option.none)
        (evAt 0)).2.matcherCalled = true := by
  have h := C10_matcher_failure mRaise (mkInstalled 1 0 0 CacheVal.unknown Option.none)
    (evAt 0) 0 PyVal.list rfl rfl rfl rfl rfl rfl rfl
  rw [h.1]
  exact ⟨rfl, rfl, rfl⟩

/- ------------------------------------------------------------------ -/
/- Claim C3                                                            -/
/- ------------------------------------------------------------------ -/

/-- Claim C3 as stated is false: with `end_ns = -1` (nonzero) and
`now = 0 ≥ end_ns`, the claim demands rejection, but the code tests
`end_ns > 0`, so the event passes the window and the delay fires. -/
theorem C3_counterexample :
    (mkInstalled 1 (-2) (-1) CacheVal.matched Option.none).end_ns ≠ 0 ∧
      (evAt 0).now_ns ≥ (mkInstalled 1 (-2) (-1) CacheVal.matched Option.none).end_ns ∧
      (evAt 0).now_ns ≥ (mkInstalled 1 (-2) (-1) CacheVal.matched Option.none).start_ns ∧
      (profile_callback mFalse (mkInstalled 1 (-2) (-1) CacheVal.matched Option.none)
        (evAt 0)).2.delayed = true := by
  refine ⟨by decide, by decide, by decide, ?_⟩
  decide

/-- Claim C3 (amended): for a matched call event, the time-window gate
rejects — no delay, no counter advance, no state change — exactly when
`now < start_ns` or (`end_ns > 0` and `now ≥ end_ns`); otherwise the gate
passes: with `frequency ≤ 1` (or no counter table) the delay fires, and
with `frequency > 1` the per-site counter advances.  `end_ns ≤ 0` behaves
as an unbounded window. -/
theorem C3_time_window (m : Nat → MatcherResult) (st : SPState) (ev : CallEvent)
    (hcall : ev.is_call = true) (hx : st.extra_index_set = true)
    (hc : st.cache ev.site = CacheVal.matched) :
    (ev.now_ns < st.start_ns ∨ (st.end_ns > 0 ∧ ev.now_ns ≥ st.end_ns) →
       profile_callback m st ev
         = (st, { delayed := false, delay_amount := 0, locateCalled := false,
                  matcherCalled := false, decision := Option.some true })) ∧
      (¬ ev.now_ns < st.start_ns → ¬ (st.end_ns > 0 ∧ ev.now_ns ≥ st.end_ns) →
        ((st.call_counters = Option.none ∨ ¬ 1 < st.frequency) →
           profile_callback m st ev
             = (st, { delayed := true, delay_amount := st.delay_ns, locateCalled := false,
                      matcherCalled := false, decision := Option.some true })) ∧
          (∀ ctrs, st.call_counters = Option.some ctrs → 1 < st.frequency →
            (profile_callback m st ev).1.call_counters
              = Option.some (updateFn ctrs ev.site (ctrs ev.site + 1)))) := by
  rw [profile_callback_matched_hit m st ev hx hcall hc]
  refine ⟨?_, ?_⟩
  · intro hrej
    by_cases hs : ev.now_ns < st.start_ns
    · simp [gates, hs]
    · have he : st.end_ns > 0 ∧ ev.now_ns ≥ st.end_ns := by
        rcases hrej with h | h
        · exact absurd h hs
        · exact h
      simp [gates, hs, he]
  · intro hs he
    constructor
    · intro hone
      rcases hone with hnone | hfreq
      · simp [gates, hs, he, hnone]
      · cases hctr : st.call_counters with
        | none => simp [gates, hs, he, hctr]
        | some ctrs => simp [gates, hs, he, hctr, hfreq]
    · intro ctrs hctr hfreq
      by_cases hmod : (ctrs ev.site + 1) % st.frequency = 0 <;>
        simp [gates, hs, he, hctr, hfreq, hmod]

/-- Witness for `C3_time_window`: an event before the start of the window
is rejected with no state change. -/
theorem C3_time_window_witness :
    profile_callback mFalse (mkInstalled 1 10 0 CacheVal.matched Option.none) (evAt 5)
      = (mkInstalled 1 10 0 CacheVal.matched Option.none,
         { delayed := false, delay_amount := 0, locateCalled := false,
           matcherCalled := false, decision := Option.some true }) :=
  (C3_time_window mFalse (mkInstalled 1 10 0 CacheVal.matched Option.none) (evAt 5)
    rfl rfl rfl).1 (Or.inl (by decide))

/- ------------------------------------------------------------------ -/
/- Claim C4                                                            -/
/- ------------------------------------------------------------------ -/

theorem profile_callback_freq_step (m : Nat → MatcherResult) (st : SPState) (ev : CallEvent)
    (ctrs : Nat → Nat)
    (hcall : ev.is_call = true) (hx : st.extra_index_set = true)
    (hc : st.cache ev.site = CacheVal.matched)
    (hw1 : ¬ ev.now_ns < st.start_ns) (hw2 : ¬ (st.end_ns > 0 ∧ ev.now_ns ≥ st.end_ns))
    (hf : 1 < st.frequency) (hctr : st.call_counters = Option.some ctrs) :
    profile_callback m st ev
      = ({ st with call_counters := Option.some (updateFn ctrs ev.site (ctrs ev.site + 1)) },
         { delayed := decide ((ctrs ev.site + 1) % st.frequency = 0),
           delay_amount := if (ctrs ev.site + 1) % st.frequency = 0 then st.delay_ns else 0,
           locateCalled := false, matcherCalled := false, decision := Option.some true }) := by
  rw [profile_callback_matched_hit m st ev hx hcall hc]
  by_cases hmod : (ctrs ev.site + 1) % st.frequency = 0 <;>
    simp [gates, hw1, hw2, hctr, hf, hmod]

/-- Claim C4: with `frequency = N > 1` installed, a run of `n` matched,
time-window-passing call events at one site increments that site's counter
once per event (other sites untouched), and the k-th event (1-based)
delays exactly when the updated counter `ctrs(site) + k` is a multiple of
`N` — so from a fresh counter table, delays fire on calls N, 2N, 3N, ... -/
theorem C4_frequency_gating (m : Nat → MatcherResult) (ev : CallEvent)
    (hcall : ev.is_call = true) :
    ∀ n (st : SPState) (ctrs : Nat → Nat),
      st.extra_index_set = true → st.cache ev.site = CacheVal.matched →
      ¬ ev.now_ns < st.start_ns → ¬ (st.end_ns > 0 ∧ ev.now_ns ≥ st.end_ns) →
      1 < st.frequency → st.call_counters = Option.some ctrs →
      (runSameEvent m n st ev).1
          = { st with call_counters :=
                Option.some (fun s => if s = ev.site then ctrs s + n else ctrs s) } ∧
        (runSameEvent m n st ev).2
          = (List.range n).map
              (fun k => decide ((ctrs ev.site + k + 1) % st.frequency = 0)) := by
  intro n
  induction n with
  | zero =>
    intro st ctrs hx hc hw1 hw2 hf hctr
    constructor
    · show st = _
      have hfun : (fun s => if s = ev.site then ctrs s + 0 else ctrs s) = ctrs := by
        funext s
        by_cases hse : s = ev.site <;> simp [hse]
      rw [hfun, ← hctr]
    · simp [runSameEvent]
  | succ n ih =>
    intro st ctrs hx hc hw1 hw2 hf hctr
    have hstep := profile_callback_freq_step m st ev ctrs hcall hx hc hw1 hw2 hf hctr
    have hstep1 : (profile_callback m st ev).1
        = { st with call_counters :=
              Option.some (updateFn ctrs ev.site (ctrs ev.site + 1)) } := by
      rw [hstep]
    have hstep2 : (profile_callback m st ev).2.delayed
        = decide ((ctrs ev.site + 1) % st.frequency = 0) := by
      rw [hstep]
    obtain ⟨ih1, ih2⟩ := ih
      { st with call_counters := Option.some (updateFn ctrs ev.site (ctrs ev.site + 1)) }
      (updateFn ctrs ev.site (ctrs ev.site + 1)) hx hc hw1 hw2 hf rfl
    constructor
    · show (runSameEvent m n (profile_callback m st ev).1 ev).1 = _
      rw [hstep1, ih1]
      have hfun : (fun s => if s = ev.site
            then updateFn ctrs ev.site (ctrs ev.site + 1) s + n
            else updateFn ctrs ev.site (ctrs ev.site + 1) s)
          = (fun s => if s = ev.site then ctrs s + (n + 1) else ctrs s) := by
        funext s
        by_cases hse : s = ev.site <;> simp [updateFn, hse] <;> omega
      rw [hfun]
    · show (profile_callback m st ev).2.delayed
          :: (runSameEvent m n (profile_callback m st ev).1 ev).2 = _
      rw [hstep2, hstep1, ih2, List.range_succ_eq_map, List.map_cons, List.map_map]
      congr 1
      congr 1
      funext k
      have hupd : updateFn ctrs ev.site (ctrs ev.site + 1) ev.site = ctrs ev.site + 1 := by
        simp [updateFn]
      have harith : updateFn ctrs ev.site (ctrs ev.site + 1) ev.site + k + 1
          = ctrs ev.site + (k + 1) + 1 := by
        rw [hupd]
        omega
      simp only [Function.comp, Nat.succ_eq_add_one, harith]

/-- Witness for `C4_frequency_gating`: with `frequency = 3` and 9
qualifying calls from a fresh counter table, exactly calls 3, 6 and 9
delay. -/
theorem C4_frequency_gating_witness :
    (runSameEvent mFalse 9 (mkInstalled 3 0 0 CacheVal.matched (Option.some (fun _ => 0)))
        (evAt 0)).2
      = [false, false, true, false, false, true, false, false, true] := by
  have h := (C4_frequency_gating mFalse (evAt 0) rfl 9
    (mkInstalled 3 0 0 CacheVal.matched (Option.some (fun _ => 0))) (fun _ => 0)
    rfl rfl (by decide) (by decide) (by decide) rfl).2
  rw [h]
  decide
